import Mathlib

/-!
Verification development for the supabase-auth-module repository.

The definitions below are shallow embeddings of the JavaScript source:

* server/verifyJwt.js            — token verifier and JWKS client configuration
* server/middleware/securityMiddleware.js
                                 — rate limiter, CSRF gate, input sanitization
* server/middleware/authMiddleware.js (src/unnamed/part_001)
                                 — bearer-token auth middleware
* server/index.js                — callback route wiring and its imports

Machine integers are modelled as Nat (all the quantities involved — epoch
milliseconds, counters, TTLs — are non-negative and far from any overflow
boundary in the source's Number range). JavaScript exceptions are modelled
with Except; absent values (undefined) with Option.
-/

/-! ## JWT data model (server/verifyJwt.js together with the jsonwebtoken
library as configured at the call site, lines 43-57) -/

/-- Decoded JOSE header of a JWT: the signature algorithm declared by the
token and the key identifier used to resolve the verification key. -/
structure JwtHeader where
  alg : String
  kid : String
deriving Repr, DecidableEq

/-- Decoded JWT payload with the claims the repository reads: subject,
email, email-verification flag, issuer, audience, expiry (epoch seconds)
and an optional role claim. -/
structure JwtPayload where
  sub : String
  email : String
  email_verified : Bool
  iss : String
  aud : String
  exp : Nat
  role : Option String
deriving Repr, DecidableEq

/-- Public signing key material, tagged with its key identifier, as served
by the JWKS endpoint. -/
structure SigKey where
  kid : String
  material : String
deriving Repr, DecidableEq

/-- Parsed JWT. The cryptographic signature is abstracted: sigBy records
the public-key material under which the RSA signature verifies, so the
signature check against key k succeeds exactly when sigBy = k.material. -/
structure JwtToken where
  header : JwtHeader
  payload : JwtPayload
  sigBy : String
deriving Repr, DecidableEq

/-- Verification options the repository passes to jwt.verify
(verifyJwt.js lines 44-48): allowed algorithms, expected issuer,
expected audience. -/
structure VerifyOpts where
  algorithms : List String
  issuer : String
  audience : String
deriving Repr, DecidableEq

/-- Options built in verifyJwt.js lines 44-48 from the SUPABASE_URL
environment value: algorithms RS256 only, issuer SUPABASE_URL/auth/v1,
audience the literal authenticated. -/
def supabaseOpts (supabaseUrl : String) : VerifyOpts :=
  { algorithms := ["RS256"]
  , issuer := supabaseUrl ++ "/auth/v1"
  , audience := "authenticated" }

/-- Distinct failure causes inside jwt.verify: the jsonwebtoken library
reports malformed tokens, key-resolution errors (the getKey callback in
verifyJwt.js lines 19-29 forwarding a JWKS error), a header algorithm
outside the allow-list, an invalid signature, an expired token, and
audience/issuer mismatches as distinct error objects. -/
inductive VerifyError where
  | malformedToken
  | keyResolution
  | invalidAlgorithm
  | invalidSignature
  | expired
  | invalidAudience
  | invalidIssuer
deriving Repr, DecidableEq

/-- Opaque JavaScript runtime exception (used where the source could only
observe a thrown value). -/
structure JsErr where
  message : String
deriving Repr, DecidableEq

/-- Model of jwt.verify(token, getKey, opts, cb) as configured in
verifyJwt.js: parsed is the decoded token (none when the string is not a
well-formed three-segment JWT), key is the outcome of resolving the
signing key through getKey (Except.error models a thrown or forwarded
JWKS error, Except.ok none a key identifier absent from the key set),
now is the clock in epoch seconds. The jsonwebtoken library checks, in
order: decodability, key resolution, declared algorithm against the
allow-list, the signature, expiry (failing when now is at or past exp),
audience, issuer. -/
def jwtVerifyFull (parsed : Option JwtToken) (key : Except JsErr (Option SigKey))
    (opts : VerifyOpts) (now : Nat) : Except VerifyError JwtPayload :=
  match parsed with
  | none => Except.error VerifyError.malformedToken
  | some t =>
    match key with
    | Except.error _ => Except.error VerifyError.keyResolution
    | Except.ok none => Except.error VerifyError.keyResolution
    | Except.ok (some k) =>
      if ¬ (t.header.alg ∈ opts.algorithms) then Except.error VerifyError.invalidAlgorithm
      else if t.sigBy ≠ k.material then Except.error VerifyError.invalidSignature
      else if now ≥ t.payload.exp then Except.error VerifyError.expired
      else if t.payload.aud ≠ opts.audience then Except.error VerifyError.invalidAudience
      else if t.payload.iss ≠ opts.issuer then Except.error VerifyError.invalidIssuer
      else Except.ok t.payload

/-- Model of verifyJwt (verifyJwt.js lines 34-63). A falsy (empty) token
returns null at once; otherwise the jwt.verify callback resolves the
promise with null on any verification error and with the decoded payload
on success; the surrounding try/catch turns any thrown exception into
null as well. Every failure path therefore collapses to none, discarding
which check failed. -/
def verifyJwt (token : String) (parsed : Option JwtToken)
    (key : Except JsErr (Option SigKey)) (supabaseUrl : String) (now : Nat) :
    Option JwtPayload :=
  if token = "" then none
  else
    match jwtVerifyFull parsed key (supabaseOpts supabaseUrl) now with
    | Except.error _ => none
    | Except.ok p => some p

/-! ## Key set cache (verifyJwt.js lines 9-14: the jwks-rsa client with
cache enabled, cacheMaxEntries 5, cacheMaxAge 600000 ms) -/

/-- Configuration record of the jwks-rsa client: maximum number of cached
keys and maximum age of a cached key in milliseconds. -/
structure JwksConfig where
  cacheMaxEntries : Nat
  cacheMaxAge : Nat
deriving Repr, DecidableEq

/-- Configuration constructed in verifyJwt.js lines 9-14:
cacheMaxEntries 5, cacheMaxAge 600000 (10 minutes). -/
def clientConfig : JwksConfig :=
  { cacheMaxEntries := 5, cacheMaxAge := 600000 }

/-- One cached signing key: identifier, key material, fetch timestamp
(epoch milliseconds). -/
structure CacheEntry where
  kid : String
  key : SigKey
  fetchedAt : Nat
deriving Repr, DecidableEq

/-- The key-set cache held by the jwks-rsa client: most recently fetched
entry first. -/
structure KeyCache where
  entries : List CacheEntry
deriving Repr, DecidableEq

/-- Lookup in the key-set cache: a cached key is served only when an entry
with the requested identifier is present and its age is strictly below the
configured maximum age. -/
def cacheLookup (c : KeyCache) (kid : String) (now maxAge : Nat) : Option SigKey :=
  match c.entries.find? (fun e => e.kid = kid) with
  | some e => if now - e.fetchedAt < maxAge then some e.key else none
  | none => none

/-- Insertion into the key-set cache: the freshly fetched entry is placed
first, any previous entry for the same identifier is dropped, and the
result is truncated to the configured capacity (evicting the entries
fetched longest ago beyond the bound). -/
def cacheInsert (cfg : JwksConfig) (c : KeyCache) (kid : String) (k : SigKey)
    (now : Nat) : KeyCache :=
  ⟨(CacheEntry.mk kid k now :: c.entries.filter (fun e => e.kid ≠ kid)).take
    cfg.cacheMaxEntries⟩

/-- Model of client.getSigningKey as used by getKey (verifyJwt.js lines
19-29): serve the cached key when present and unexpired, otherwise fetch
from the JWKS endpoint (fetch none models a network failure or an absent
key identifier) and cache a successful fetch. Returns the resolved key
and the updated cache. -/
def getSigningKey (cfg : JwksConfig) (c : KeyCache) (kid : String) (now : Nat)
    (fetch : String → Option SigKey) : Option SigKey × KeyCache :=
  match cacheLookup c kid now cfg.cacheMaxAge with
  | some k => (some k, c)
  | none =>
    match fetch kid with
    | some k => (some k, cacheInsert cfg c kid k now)
    | none => (none, c)

/-- Stateful run of verifyJwt with the key resolved through the JWKS
cache: the observable result of verifyJwt together with the cache state
it leaves behind. A malformed or empty token fails before key resolution
and leaves the cache untouched. -/
def verifyJwtS (token : String) (parsed : Option JwtToken) (c : KeyCache)
    (supabaseUrl : String) (now : Nat) (fetch : String → Option SigKey) :
    Option JwtPayload × KeyCache :=
  if token = "" then (none, c)
  else
    match parsed with
    | none => (none, c)
    | some t =>
      let r := getSigningKey clientConfig c t.header.kid now fetch
      (verifyJwt token (some t) (Except.ok r.1) supabaseUrl now, r.2)

/-! ## Rate limiter (securityMiddleware.js lines 9-31, express-rate-limit
with a fixed-window memory store; wired to the callback route in
index.js line 20 as rateLimitMiddleware(10, 60)) -/

/-- Window size in milliseconds computed by rateLimitMiddleware
(securityMiddleware.js line 11): windowMinutes * 60 * 1000. -/
def windowMsOf (windowMinutes : Nat) : Nat :=
  windowMinutes * 60 * 1000

/-- Rate-limit key for a request (securityMiddleware.js line 21): the
client network address and the agent string joined by a dash. -/
def rateKey (ip userAgent : String) : String :=
  ip ++ "-" ++ userAgent

/-- Per-key fixed-window state of the express-rate-limit memory store:
the number of hits in the current window and the epoch-millisecond
time at which the window resets. -/
structure RateState where
  count : Nat
  resetTime : Nat
deriving Repr, DecidableEq

/-- One request hitting the fixed-window limiter for a single key: when
the window has elapsed the counter restarts and a fresh reset time of
now + windowMs is set; the hit is counted and allowed exactly when the
count stays within the maximum. -/
def rateHit (windowMs maxReq : Nat) (st : Option RateState) (now : Nat) :
    Bool × RateState :=
  let s0 : RateState :=
    match st with
    | some s => if now ≥ s.resetTime then ⟨0, now + windowMs⟩ else s
    | none => ⟨0, now + windowMs⟩
  let s1 : RateState := ⟨s0.count + 1, s0.resetTime⟩
  (s1.count ≤ maxReq, s1)

/-- Remaining requests of a run against the limiter, given the state left
by the earlier requests and the decisions already taken (most recent
first). -/
def rateRunFrom (windowMs maxReq : Nat) (s : RateState) (ts : List Nat)
    (acc : List Bool) : List Bool × Option RateState :=
  match ts with
  | [] => (acc.reverse, some s)
  | t :: rest =>
    let r := rateHit windowMs maxReq (some s) t
    rateRunFrom windowMs maxReq r.2 rest (r.1 :: acc)

/-- Sequence of requests from one key at the given epoch-millisecond
times: returns whether each request was allowed and the final state. -/
def rateRun (windowMs maxReq : Nat) (times : List Nat) :
    List Bool × Option RateState :=
  match times with
  | [] => ([], none)
  | t :: ts =>
    let r := rateHit windowMs maxReq none t
    rateRunFrom windowMs maxReq r.2 ts (r.1 :: [])

/-- Retry-after value placed in the 429 JSON body by the rejection
handler (securityMiddleware.js line 27): Math.ceil(resetTime / 1000),
where resetTime is the epoch-millisecond reset timestamp. -/
def retryAfterOf (resetTime : Nat) : Nat :=
  (resetTime + 999) / 1000

/-! ## CSRF / origin gate (securityMiddleware.js lines 36-79) -/

/-- Outcome of a gate middleware stage: continue the chain or reject the
request with 403. -/
inductive CsrfOutcome where
  | next
  | forbidden
deriving Repr, DecidableEq

/-- JavaScript truthiness of an optional header value: an absent header
and an empty string are both falsy. -/
def truthy : Option String → Bool
  | none => false
  | some s => ¬ s.isEmpty

/-- Host the gate compares against (securityMiddleware.js line 44): the
host component of the SITE_URL environment value when that is set, else
the request's own Host header; parseHost models the host extraction of
the WHATWG URL constructor, none meaning the constructor throws, which
at this position is an uncaught exception (modelled as Except.error). -/
def allowedHostOf (siteUrl host : Option String)
    (parseHost : String → Option String) : Except JsErr (Option String) :=
  if truthy siteUrl then
    match parseHost (siteUrl.getD "") with
    | some h => Except.ok (some h)
    | none => Except.error ⟨"Invalid URL"⟩
  else Except.ok host

/-- Host extracted from the request (securityMiddleware.js lines 47-60):
from the Origin header when that is truthy, else from the Referer header
when that is truthy; a parse failure or both headers missing leaves it
null. -/
def requestHostOf (origin referer : Option String)
    (parseHost : String → Option String) : Option String :=
  if truthy origin then parseHost (origin.getD "")
  else if truthy referer then parseHost (referer.getD "")
  else none

/-- Model of csrfProtection (securityMiddleware.js lines 36-79): GET,
HEAD and OPTIONS requests pass unconditionally; any other method passes
exactly when a host was extracted from Origin/Referer and it equals the
allowed host, and is rejected with 403 otherwise. -/
def csrfProtection (method : String) (origin referer host siteUrl : Option String)
    (parseHost : String → Option String) : Except JsErr CsrfOutcome :=
  if method = "GET" ∨ method = "HEAD" ∨ method = "OPTIONS" then
    Except.ok CsrfOutcome.next
  else
    match allowedHostOf siteUrl host parseHost with
    | Except.error e => Except.error e
    | Except.ok allowedHost =>
      match requestHostOf origin referer parseHost with
      | none => Except.ok CsrfOutcome.forbidden
      | some rh =>
        if allowedHost = some rh then Except.ok CsrfOutcome.next
        else Except.ok CsrfOutcome.forbidden

/-- Host text after a scheme separator: up to the first slash, query or
fragment delimiter; none when empty (the URL constructor throws). -/
def urlHostRest (r : String) : Option String :=
  let h := String.mk (r.data.takeWhile (fun c => ¬ (c = '/' ∨ c = '?' ∨ c = '#')))
  if h.isEmpty then none else some h

/-- Host component of a simple absolute http(s) URL, modelling the WHATWG
URL constructor on the URL shapes exercised here: text between the scheme
separator and the first slash, query or fragment; none when the string
has no http or https scheme or an empty host (the constructor throws). -/
def urlHost (s : String) : Option String :=
  if s.take 8 = "https://" then urlHostRest (s.drop 8)
  else if s.take 7 = "http://" then urlHostRest (s.drop 7)
  else none

/-! ## Input sanitization (securityMiddleware.js lines 259-279) -/

/-- JavaScript value as far as the sanitizer distinguishes them: strings
against everything else (typeof checks on line 263 and 272). -/
inductive JsVal where
  | str (s : String)
  | num (n : Int)
  | boolean (b : Bool)
  | null
  | objVal
deriving Repr, DecidableEq

/-- Request shape read by sanitizeInput: the query and body parameter
maps (none models an absent or non-object value) plus the remaining
request fields the middleware never touches. -/
structure HttpRequest where
  query : Option (List (String × JsVal))
  body : Option (List (String × JsVal))
  headers : List (String × String)
  method : String
deriving Repr, DecidableEq

/-- The ECMAScript trim operation: removes leading and trailing
whitespace characters (modelled over the whitespace class of
Char.isWhitespace). -/
def jsTrim (s : String) : String :=
  String.mk
    (((s.data.dropWhile Char.isWhitespace).reverse.dropWhile
      Char.isWhitespace).reverse)

/-- Trim applied to one parameter map: every string value is replaced by
its leading/trailing-whitespace-trimmed form in place, every non-string
value is left as it is. -/
def trimStringParams (ps : List (String × JsVal)) : List (String × JsVal) :=
  ps.map (fun kv =>
    match kv.2 with
    | JsVal.str s => (kv.1, JsVal.str (jsTrim s))
    | _ => kv)

/-- Model of sanitizeInput (securityMiddleware.js lines 259-279): trims
string-valued query and body parameters in place and always continues
the chain (the function has no rejection path). -/
def sanitizeInput (r : HttpRequest) : HttpRequest :=
  { r with
    query := r.query.map trimStringParams
    body := r.body.map trimStringParams }

/-! ## Auth middleware (server/middleware/authMiddleware.js) -/

/-- Identity context the middleware attaches to the request on success
(authMiddleware.js lines 40-45). -/
structure AuthUser where
  id : String
  email : String
  email_verified : Bool
  role : String
deriving Repr, DecidableEq

/-- Outcome of the auth middleware: a 401 rejection with its message, a
500 on an unexpected internal fault, or continuation with the attached
identity context. -/
inductive AuthOutcome where
  | unauthorized (msg : String)
  | serverError
  | next (u : AuthUser)
deriving Repr, DecidableEq

/-- Model of authMiddleware (authMiddleware.js lines 7-57), parameterised
over the verifier it awaits (verifier Except.error models a thrown
exception, caught by the surrounding try/catch and turned into a 500):
reject 401 when the Authorization header is missing or lacks the
Bearer-space prefix; strip the seven-character prefix and reject 401 when
the remaining token is empty; reject 401 when verification yields null;
otherwise attach the identity context with the role claim defaulted to
user and continue. -/
def authMiddleware (authHeader : Option String)
    (verifier : String → Except JsErr (Option JwtPayload)) : AuthOutcome :=
  match authHeader with
  | none => AuthOutcome.unauthorized "Authorization header required"
  | some h =>
    if ¬ (h.take 7 = "Bearer ") then
      AuthOutcome.unauthorized "Authorization header required"
    else
      let token := h.drop 7
      if token = "" then AuthOutcome.unauthorized "Token is required"
      else
        match verifier token with
        | Except.error _ => AuthOutcome.serverError
        | Except.ok none => AuthOutcome.unauthorized "Invalid or expired token"
        | Except.ok (some p) =>
          AuthOutcome.next ⟨p.sub, p.email, p.email_verified, p.role.getD "user"⟩

/-- Bearer token carried by a well-formed Authorization header: some
token exactly when the header is present, starts with the literal
Bearer-space prefix, and the rest is non-empty. -/
def bearerToken : Option String → Option String
  | none => none
  | some h =>
    if h.take 7 = "Bearer " ∧ h.drop 7 ≠ "" then some (h.drop 7) else none

/-! ## Callback route import wiring (server/index.js lines 4 and 173-251
together with module.exports = verifyJwt in verifyJwt.js line 65) -/

/-- JavaScript module value as far as the import is concerned: undefined,
a function value, or an object with named properties. -/
inductive JsValue where
  | undef
  | fn (name : String)
  | objProps (props : List (String × JsValue))

/-- Property access on a JavaScript value as performed by destructuring: a
property of an object is looked up by name (undefined when absent); a
function value carries no own property named after itself, so
destructuring a name out of it yields undefined. -/
def jsGetProp : JsValue → String → JsValue
  | JsValue.objProps ps, k => (ps.lookup k).getD JsValue.undef
  | _, _ => JsValue.undef

/-- Export of verifyJwt.js (line 65): module.exports is the verifyJwt
function itself, not an object holding it. -/
def verifyJwtModuleExports : JsValue := JsValue.fn "verifyJwt"

/-- Binding produced in index.js line 4 by destructuring verifyJwt from
the module export. -/
def importedVerifyJwt : JsValue := jsGetProp verifyJwtModuleExports "verifyJwt"

/-- Calling a JavaScript value: only a function value can be invoked;
anything else raises a TypeError. callImpl supplies the behaviour of the
actual verifyJwt function for the case where a function is invoked. -/
def jsCall (f : JsValue) (callImpl : String → Option JwtPayload)
    (arg : String) : Except JsErr (Option JwtPayload) :=
  match f with
  | JsValue.fn _ => Except.ok (callImpl arg)
  | _ => Except.error ⟨"verifyJwt is not a function"⟩

/-- Model of the POST /supabase-callback handler body (index.js lines
173-251) after the gate middleware: 400 when access_token is falsy;
otherwise await the imported verifyJwt binding on the token — a thrown
TypeError is converted by the catch-all to 500 — then 401 when the
verification result is null, and otherwise the rest of the handler
(validation, user creation, logging, the 200 response), abstracted as
afterAuth on the verified payload. Returns the HTTP status code. -/
def supabaseCallback (accessToken : String)
    (callImpl : String → Option JwtPayload)
    (afterAuth : JwtPayload → Nat) : Nat :=
  if accessToken = "" then 400
  else
    match jsCall importedVerifyJwt callImpl accessToken with
    | Except.error _ => 500
    | Except.ok none => 401
    | Except.ok (some p) => afterAuth p

/-- Gate middleware step outcome: continue the chain with the (possibly
rewritten) request, or send a rejection with the given status code. -/
inductive GateStep where
  | proceed (r : HttpRequest)
  | reject (status : Nat)
deriving Repr, DecidableEq

/-- The sanitization middleware as a gate stage: it always calls next
with the sanitized request (securityMiddleware.js line 278 runs
unconditionally; the function has no response-sending path). -/
def sanitizeInputMw (r : HttpRequest) : GateStep :=
  GateStep.proceed (sanitizeInput r)

/-- Maximum request count configured for the callback route
(index.js line 20, first argument of rateLimitMiddleware). -/
def callbackMaxRequests : Nat := 10

/-- Second argument passed to rateLimitMiddleware for the callback route
(index.js line 20); the inline comment there reads: 10 attempts per 60
seconds. -/
def callbackWindowArg : Nat := 60

/-- Window in milliseconds actually used for the callback route: the
second argument is multiplied as minutes (securityMiddleware.js line 11),
yielding 3600000 ms. -/
def callbackWindowMs : Nat := windowMsOf callbackWindowArg

/-- Sample verified payload used to instantiate theorems on concrete
inputs. -/
def samplePayload : JwtPayload :=
  { sub := "11111111-2222-4333-8444-555555555555"
  , email := "user@example.com"
  , email_verified := true
  , iss := "https://proj.supabase.co/auth/v1"
  , aud := "authenticated"
  , exp := 2000000000
  , role := none }

/-- Sample signing key used to instantiate theorems on concrete inputs. -/
def sampleKey : SigKey := { kid := "k1", material := "PUBKEY1" }

/-- Sample well-formed RS256 token signed under sampleKey. -/
def sampleToken : JwtToken :=
  { header := { alg := "RS256", kid := "k1" }
  , payload := samplePayload
  , sigBy := "PUBKEY1" }

/-- Sample token whose header declares the symmetric algorithm HS256. -/
def sampleTokenHS256 : JwtToken :=
  { header := { alg := "HS256", kid := "k1" }
  , payload := samplePayload
  , sigBy := "PUBKEY1" }

/-- Sample request with one padded string query parameter, one numeric
query parameter and one padded string body parameter. -/
def sampleRequest : HttpRequest :=
  { query := some [("q", JsVal.str "  hello "), ("n", JsVal.num 3)]
  , body := some [("access_token", JsVal.str " tok ")]
  , headers := [("host", "app.example")]
  , method := "POST" }

/-! ## Theorems -/

/-- Inversion of a successful jwt.verify run: success forces a decodable
token, a resolved key, an allow-listed algorithm, a valid signature, an
unexpired token and matching audience and issuer, and the produced
payload is the decoded one. -/
theorem jwtVerifyFull_ok_elim {parsed : Option JwtToken}
    {key : Except JsErr (Option SigKey)} {opts : VerifyOpts} {now : Nat}
    {p : JwtPayload} (h : jwtVerifyFull parsed key opts now = Except.ok p) :
    ∃ t k, parsed = some t ∧ key = Except.ok (some k) ∧
      t.header.alg ∈ opts.algorithms ∧ t.sigBy = k.material ∧
      now < t.payload.exp ∧ t.payload.aud = opts.audience ∧
      t.payload.iss = opts.issuer ∧ p = t.payload := by
  unfold jwtVerifyFull at h
  match parsed, key with
  | none, _ => exact absurd h (by simp)
  | some t, Except.error e => exact absurd h (by simp)
  | some t, Except.ok none => exact absurd h (by simp)
  | some t, Except.ok (some k) =>
    simp only at h
    split_ifs at h with h1 h2 h3 h4 h5
    simp at h
    exact ⟨t, k, rfl, rfl, h1, not_not.mp h2, lt_of_not_ge h3,
      not_not.mp h4, not_not.mp h5, h.symm⟩

/-- C3: for every input token — empty, malformed, with an unresolvable
key, a bad signature, a wrong issuer or audience, expired, or otherwise
rejected (any VerifyError, including a thrown key-resolution exception) —
verifyJwt resolves to the single uniform outcome none, independent of
which check failed, and no exception escapes its boundary. -/
theorem verifyJwt_uniform_failure (token : String) (parsed : Option JwtToken)
    (key : Except JsErr (Option SigKey)) (supabaseUrl : String) (now : Nat)
    (e : VerifyError)
    (h : token = "" ∨
      jwtVerifyFull parsed key (supabaseOpts supabaseUrl) now = Except.error e) :
    verifyJwt token parsed key supabaseUrl now = none := by
  by_cases ht : token = ""
  · simp [verifyJwt, ht]
  · rcases h with h | h
    · exact absurd h ht
    · simp [verifyJwt, ht, h]

/-- Witness for C3: a nonempty undecodable token with a thrown
key-resolution error yields none. -/
theorem verifyJwt_uniform_failure_witness :
    verifyJwt "nonsense" none (Except.error ⟨"fetch failed"⟩)
      "https://proj.supabase.co" 1700000000 = none :=
  verifyJwt_uniform_failure "nonsense" none (Except.error ⟨"fetch failed"⟩)
    "https://proj.supabase.co" 1700000000 VerifyError.malformedToken
    (Or.inr rfl)

/-- C6: a token whose issuer claim differs from the configured issuer
URI, or whose audience claim differs from the fixed expected value
authenticated, fails verification even when its signature is valid under
the resolved key; and a token whose expiry is in the past fails
regardless of signature validity. -/
theorem verifyJwt_claims_validation (token supabaseUrl : String)
    (t : JwtToken) (k : SigKey) (now : Nat)
    (h : (t.sigBy = k.material ∧
            (t.payload.iss ≠ supabaseUrl ++ "/auth/v1" ∨
             t.payload.aud ≠ "authenticated")) ∨
         t.payload.exp < now) :
    verifyJwt token (some t) (Except.ok (some k)) supabaseUrl now = none := by
  by_cases ht : token = ""
  · simp [verifyJwt, ht]
  · cases hv : jwtVerifyFull (some t) (Except.ok (some k))
        (supabaseOpts supabaseUrl) now with
    | error e => simp [verifyJwt, ht, hv]
    | ok p =>
      exfalso
      obtain ⟨t2, k2, ht2, hk2, _, _, hexp, haud, hiss, _⟩ :=
        jwtVerifyFull_ok_elim hv
      cases ht2
      rcases h with ⟨_, h | h⟩ | h
      · exact h hiss
      · exact h haud
      · omega

/-- Witness for C6: a validly signed, unexpired token whose audience is
public rather than authenticated is rejected. -/
theorem verifyJwt_claims_validation_witness :
    verifyJwt "header.payload.sig"
      (some { sampleToken with
        payload := { samplePayload with aud := "public" } })
      (Except.ok (some sampleKey)) "https://proj.supabase.co" 1700000000 =
      none :=
  verifyJwt_claims_validation "header.payload.sig" "https://proj.supabase.co"
    { sampleToken with payload := { samplePayload with aud := "public" } }
    sampleKey 1700000000 (Or.inl ⟨rfl, Or.inr (by decide)⟩)

/-- C7: the verifier accepts signatures only under the fixed allow-list
containing exactly RS256; every token whose header declares any other
algorithm is rejected, whatever the key-resolution outcome. -/
theorem verifyJwt_algorithm_allowlist (token supabaseUrl : String)
    (t : JwtToken) (key : Except JsErr (Option SigKey)) (now : Nat)
    (h : t.header.alg ≠ "RS256") :
    (supabaseOpts supabaseUrl).algorithms = ["RS256"] ∧
    verifyJwt token (some t) key supabaseUrl now = none := by
  refine ⟨rfl, ?_⟩
  by_cases ht : token = ""
  · simp [verifyJwt, ht]
  · cases hv : jwtVerifyFull (some t) key (supabaseOpts supabaseUrl) now with
    | error e => simp [verifyJwt, ht, hv]
    | ok p =>
      exfalso
      obtain ⟨t2, k2, ht2, hk2, halg, _⟩ := jwtVerifyFull_ok_elim hv
      cases ht2
      exact h (by simpa [supabaseOpts] using halg)

/-- Witness for C7: an otherwise valid token declaring HS256 is
rejected. -/
theorem verifyJwt_algorithm_allowlist_witness :
    (supabaseOpts "https://proj.supabase.co").algorithms = ["RS256"] ∧
    verifyJwt "header.payload.sig" (some sampleTokenHS256)
      (Except.ok (some sampleKey)) "https://proj.supabase.co" 1700000000 =
      none :=
  verifyJwt_algorithm_allowlist "header.payload.sig" "https://proj.supabase.co"
    sampleTokenHS256 (Except.ok (some sampleKey)) 1700000000 (by decide)

/-- A key just cached is served back by an immediate lookup: its age is
zero, below the configured maximum age of the client configuration. -/
theorem cacheLookup_cacheInsert_self (c : KeyCache) (kid : String)
    (k : SigKey) (now : Nat) :
    cacheLookup (cacheInsert clientConfig c kid k now) kid now
      clientConfig.cacheMaxAge = some k := by
  unfold cacheLookup cacheInsert clientConfig
  simp [List.take_succ_cons, List.find?]

/-- Verifying a token a second time from the cache state left by the
first verification changes nothing: result and state coincide with the
first run (the key resolved during the first run is served from the
cache, or the failure repeats). -/
theorem verifyJwtS_stable (token : String) (parsed : Option JwtToken)
    (c : KeyCache) (supabaseUrl : String) (now : Nat)
    (fetch : String → Option SigKey) :
    verifyJwtS token parsed (verifyJwtS token parsed c supabaseUrl now fetch).2
      supabaseUrl now fetch = verifyJwtS token parsed c supabaseUrl now fetch := by
  by_cases ht : token = ""
  · simp [verifyJwtS, ht]
  · cases parsed with
    | none => simp [verifyJwtS, ht]
    | some t =>
      simp only [verifyJwtS, ht, if_false]
      unfold getSigningKey
      cases hl : cacheLookup c t.header.kid now clientConfig.cacheMaxAge with
      | some k => simp [hl]
      | none =>
        cases hf : fetch t.header.kid with
        | none => simp [hl, hf]
        | some k => simp [hl, hf, cacheLookup_cacheInsert_self]

/-- C9: with the key set (fetch function) and clock held fixed, a token
that verifies to claims p verifies to the same claims p when verified
again in succession from the state the first verification left behind. -/
theorem verifyJwtS_idempotent (token : String) (parsed : Option JwtToken)
    (c : KeyCache) (supabaseUrl : String) (now : Nat)
    (fetch : String → Option SigKey) (p : JwtPayload)
    (h : (verifyJwtS token parsed c supabaseUrl now fetch).1 = some p) :
    (verifyJwtS token parsed (verifyJwtS token parsed c supabaseUrl now fetch).2
      supabaseUrl now fetch).1 = some p := by
  rw [verifyJwtS_stable]
  exact h

/-- Witness for C9: the sample token, verified from an empty cache with a
key set serving sampleKey, yields samplePayload twice in succession. -/
theorem verifyJwtS_idempotent_witness :
    (verifyJwtS "header.payload.sig" (some sampleToken)
      (verifyJwtS "header.payload.sig" (some sampleToken) ⟨[]⟩
        "https://proj.supabase.co" 1700000000
        (fun _ => some sampleKey)).2
      "https://proj.supabase.co" 1700000000
      (fun _ => some sampleKey)).1 = some samplePayload :=
  verifyJwtS_idempotent "header.payload.sig" (some sampleToken) ⟨[]⟩
    "https://proj.supabase.co" 1700000000 (fun _ => some sampleKey)
    samplePayload (by decide)

/-- C10: the JWKS client is configured with a 600000 ms (600 second) TTL
and a capacity of 5 entries; under that configuration a cached key is
served on lookup only when its entry's age is strictly below the TTL,
and key resolution from a cache within capacity leaves a cache within
capacity. -/
theorem jwks_cache_config (c : KeyCache) (kid : String) (now : Nat)
    (k : SigKey) (fetch : String → Option SigKey)
    (hserve : cacheLookup c kid now clientConfig.cacheMaxAge = some k)
    (hsize : c.entries.length ≤ clientConfig.cacheMaxEntries) :
    clientConfig.cacheMaxAge = 600 * 1000 ∧
    clientConfig.cacheMaxEntries = 5 ∧
    (∃ e ∈ c.entries, e.kid = kid ∧ e.key = k ∧
      now - e.fetchedAt < 600 * 1000) ∧
    ((getSigningKey clientConfig c kid now fetch).2).entries.length ≤ 5 := by
  refine ⟨rfl, rfl, ?_, ?_⟩
  · unfold cacheLookup at hserve
    cases hf : c.entries.find? (fun e => e.kid = kid) with
    | none => simp [hf] at hserve
    | some e =>
      simp only [hf] at hserve
      have hmem := List.mem_of_find?_eq_some hf
      have hkid : e.kid = kid := by simpa using List.find?_some hf
      split_ifs at hserve with hage
      exact ⟨e, hmem, hkid, by simpa using hserve,
        by simp only [clientConfig] at hage; omega⟩
  · unfold getSigningKey
    cases hl : cacheLookup c kid now clientConfig.cacheMaxAge with
    | some k2 => simpa using hsize
    | none =>
      cases hf : fetch kid with
      | none => simpa using hsize
      | some k2 =>
        simp only [cacheInsert]
        calc ((CacheEntry.mk kid k2 now ::
                c.entries.filter (fun e => e.kid ≠ kid)).take
                clientConfig.cacheMaxEntries).length
            ≤ clientConfig.cacheMaxEntries :=
              List.length_take_le clientConfig.cacheMaxEntries _
          _ = 5 := rfl

/-- Witness for C10: a cache holding one fresh entry serves it and stays
within capacity. -/
theorem jwks_cache_config_witness :
    clientConfig.cacheMaxAge = 600 * 1000 ∧
    clientConfig.cacheMaxEntries = 5 ∧
    (∃ e ∈ (KeyCache.mk [⟨"k1", sampleKey, 1700000000000⟩]).entries,
      e.kid = "k1" ∧ e.key = sampleKey ∧
      1700000100000 - e.fetchedAt < 600 * 1000) ∧
    ((getSigningKey clientConfig (KeyCache.mk [⟨"k1", sampleKey, 1700000000000⟩])
        "k1" 1700000100000 (fun _ => none)).2).entries.length ≤ 5 :=
  jwks_cache_config (KeyCache.mk [⟨"k1", sampleKey, 1700000000000⟩]) "k1"
    1700000100000 sampleKey (fun _ => none) (by decide) (by decide)

/-- C4: when the Authorization header is absent or does not consist of
the literal Bearer-space prefix followed by a non-empty token, the
middleware answers 401 and its outcome does not depend on the verifier
(the verifier is not invoked); when such a bearer token is present, a
null verification answers 401, a successful verification attaches the
identity context — subject id, email, email-verified flag, and the role
claim defaulted to user — and continues the chain, and a verifier that
throws is surfaced as a 500. -/
theorem authMiddleware_contract (ah : Option String)
    (v w : String → Except JsErr (Option JwtPayload)) :
    (bearerToken ah = none →
      (∃ msg, authMiddleware ah v = AuthOutcome.unauthorized msg) ∧
      authMiddleware ah v = authMiddleware ah w) ∧
    (∀ tok, bearerToken ah = some tok →
      (v tok = Except.ok none →
        authMiddleware ah v = AuthOutcome.unauthorized "Invalid or expired token") ∧
      (∀ p, v tok = Except.ok (some p) →
        authMiddleware ah v =
          AuthOutcome.next ⟨p.sub, p.email, p.email_verified, p.role.getD "user"⟩) ∧
      (∀ e, v tok = Except.error e →
        authMiddleware ah v = AuthOutcome.serverError)) := by
  constructor
  · intro hb
    cases ah with
    | none => exact ⟨⟨"Authorization header required", rfl⟩, rfl⟩
    | some h =>
      by_cases hbp : h.take 7 = "Bearer "
      · by_cases hemp : h.drop 7 = ""
        · constructor
          · exact ⟨"Token is required", by simp [authMiddleware, hbp, hemp]⟩
          · simp [authMiddleware, hbp, hemp]
        · exfalso
          simp [bearerToken, hbp, hemp] at hb
      · constructor
        · exact ⟨"Authorization header required", by simp [authMiddleware, hbp]⟩
        · simp [authMiddleware, hbp]
  · intro tok hb
    cases ah with
    | none => simp [bearerToken] at hb
    | some h =>
      by_cases hbp : h.take 7 = "Bearer "
      · by_cases hemp : h.drop 7 = ""
        · simp [bearerToken, hbp, hemp] at hb
        · have htok : tok = h.drop 7 := by
            simp [bearerToken, hbp, hemp] at hb
            exact hb.symm
          subst htok
          refine ⟨?_, ?_, ?_⟩
          · intro hv; simp [authMiddleware, hbp, hemp, hv]
          · intro p hv; simp [authMiddleware, hbp, hemp, hv]
          · intro e hv; simp [authMiddleware, hbp, hemp, hv]
      · simp [bearerToken, hbp] at hb

/-- Witness for C4: a well-formed bearer header with a verifier returning
the sample payload attaches the identity context with the defaulted
role. -/
theorem authMiddleware_contract_witness :
    authMiddleware (some "Bearer tok123")
      (fun _ => Except.ok (some samplePayload)) =
    AuthOutcome.next ⟨samplePayload.sub, samplePayload.email,
      samplePayload.email_verified, samplePayload.role.getD "user"⟩ :=
  ((authMiddleware_contract (some "Bearer tok123")
      (fun _ => Except.ok (some samplePayload))
      (fun _ => Except.ok none)).2 "tok123" (by decide)).2.1
    samplePayload rfl

/-- C5: every GET, HEAD or OPTIONS request passes the CSRF gate whatever
its headers; for any other method, whenever the allowed host is computed
(the configured site URL parses, or the fallback to the request's own
declared host is taken), the request passes exactly when the host
extracted from the Origin header — or from the Referer header when
Origin is absent — equals the allowed host, and is rejected with 403
otherwise (missing header, unparsable URI, or differing host); in
particular a POST with Origin https evil.example against configured site
host https app.example is rejected with 403. -/
theorem csrfProtection_contract (method : String)
    (origin referer host siteUrl : Option String)
    (parseHost : String → Option String) :
    ((method = "GET" ∨ method = "HEAD" ∨ method = "OPTIONS") →
      csrfProtection method origin referer host siteUrl parseHost =
        Except.ok CsrfOutcome.next) ∧
    (¬ (method = "GET" ∨ method = "HEAD" ∨ method = "OPTIONS") →
      ∀ aHost, allowedHostOf siteUrl host parseHost = Except.ok aHost →
        (csrfProtection method origin referer host siteUrl parseHost =
            Except.ok CsrfOutcome.next ↔
          ∃ rh, requestHostOf origin referer parseHost = some rh ∧
            aHost = some rh) ∧
        (csrfProtection method origin referer host siteUrl parseHost =
            Except.ok CsrfOutcome.next ∨
         csrfProtection method origin referer host siteUrl parseHost =
            Except.ok CsrfOutcome.forbidden)) ∧
    (csrfProtection "POST" (some "https://evil.example") none
        (some "app.example") (some "https://app.example") urlHost =
      Except.ok CsrfOutcome.forbidden) := by
  refine ⟨?_, ?_, rfl⟩
  · intro hsafe
    simp [csrfProtection, hsafe]
  · intro hunsafe aHost hallowed
    cases hreq : requestHostOf origin referer parseHost with
    | none =>
      have hx : csrfProtection method origin referer host siteUrl parseHost =
          Except.ok CsrfOutcome.forbidden := by
        unfold csrfProtection
        rw [if_neg hunsafe, hallowed]
        dsimp only
        rw [hreq]
      refine ⟨?_, Or.inr hx⟩
      rw [hx]
      simp
    | some rh =>
      have hx : csrfProtection method origin referer host siteUrl parseHost =
          (if aHost = some rh then Except.ok CsrfOutcome.next
           else Except.ok CsrfOutcome.forbidden) := by
        unfold csrfProtection
        rw [if_neg hunsafe, hallowed]
        dsimp only
        rw [hreq]
      by_cases heq : aHost = some rh
      · rw [if_pos heq] at hx
        refine ⟨?_, Or.inl hx⟩
        rw [hx]
        constructor
        · intro _; exact ⟨rh, rfl, heq⟩
        · intro _; rfl
      · rw [if_neg heq] at hx
        refine ⟨?_, Or.inr hx⟩
        rw [hx]
        constructor
        · intro habs; exact absurd habs (by simp)
        · rintro ⟨rh2, hrh2, heq2⟩
          cases Option.some.inj hrh2
          exact absurd heq2 heq

/-- Witness for C5: a POST whose Origin host matches the configured site
host passes the gate. -/
theorem csrfProtection_contract_witness :
    csrfProtection "POST" (some "https://app.example") none
      (some "app.example") (some "https://app.example") urlHost =
      Except.ok CsrfOutcome.next :=
  (((csrfProtection_contract "POST" (some "https://app.example") none
      (some "app.example") (some "https://app.example") urlHost).2.1
    (by decide) (some "app.example") rfl).1).mpr
    ⟨"app.example", rfl, rfl⟩

/-- C8: the sanitization middleware replaces every string-valued query
and body parameter with its trimmed value in place, leaves every
non-string-valued parameter and every other request field (headers,
method) unchanged, and never rejects: it always continues the chain with
the rewritten request. -/
theorem sanitizeInput_contract (r : HttpRequest) :
    sanitizeInputMw r = GateStep.proceed (sanitizeInput r) ∧
    (sanitizeInput r).headers = r.headers ∧
    (sanitizeInput r).method = r.method ∧
    (sanitizeInput r).query = r.query.map trimStringParams ∧
    (sanitizeInput r).body = r.body.map trimStringParams ∧
    (∀ ps k s, (k, JsVal.str s) ∈ ps →
      (k, JsVal.str (jsTrim s)) ∈ trimStringParams ps) ∧
    (∀ ps kv, kv ∈ ps → (∀ s, kv.2 ≠ JsVal.str s) → kv ∈ trimStringParams ps) := by
  refine ⟨rfl, rfl, rfl, rfl, rfl, ?_, ?_⟩
  · intro ps k s hmem
    have h := List.mem_map_of_mem
      (fun kv : String × JsVal =>
        match kv.2 with
        | JsVal.str s => (kv.1, JsVal.str (jsTrim s))
        | _ => kv) hmem
    simpa [trimStringParams] using h
  · intro ps kv hmem hns
    obtain ⟨k, v⟩ := kv
    have h := List.mem_map_of_mem
      (fun kv : String × JsVal =>
        match kv.2 with
        | JsVal.str s => (kv.1, JsVal.str (jsTrim s))
        | _ => kv) hmem
    cases v with
    | str s => exact absurd rfl (hns s)
    | num n => simpa [trimStringParams] using h
    | boolean b => simpa [trimStringParams] using h
    | null => simpa [trimStringParams] using h
    | objVal => simpa [trimStringParams] using h

/-- Witness for C8: on the sample request the padded string query value
is trimmed in place while the numeric value, the headers and the method
are untouched. -/
theorem sanitizeInput_contract_witness :
    ("q", JsVal.str "hello") ∈
      trimStringParams [("q", JsVal.str "  hello "), ("n", JsVal.num 3)] ∧
    ("n", JsVal.num 3) ∈
      trimStringParams [("q", JsVal.str "  hello "), ("n", JsVal.num 3)] ∧
    (sanitizeInput sampleRequest).headers = sampleRequest.headers :=
  ⟨by
    have h := (sanitizeInput_contract sampleRequest).2.2.2.2.2.1
      [("q", JsVal.str "  hello "), ("n", JsVal.num 3)] "q" "  hello "
      (by decide)
    simpa using h,
   (sanitizeInput_contract sampleRequest).2.2.2.2.2.2
      [("q", JsVal.str "  hello "), ("n", JsVal.num 3)] ("n", JsVal.num 3)
      (by decide) (fun s => by simp),
   (sanitizeInput_contract sampleRequest).2.1⟩

/-- C2: index.js line 4 destructures verifyJwt from a module whose sole
export is the function itself, so the imported binding is undefined;
for every POST with a truthy access_token that reaches the handler, the
call to the binding throws a TypeError and the catch-all converts it to
a 500 response — the 401 invalid-token branch and the success branch
abstracted by afterAuth are unreachable. -/
theorem supabaseCallback_always_500 (tok : String)
    (callImpl : String → Option JwtPayload) (afterAuth : JwtPayload → Nat)
    (h : tok ≠ "") :
    importedVerifyJwt = JsValue.undef ∧
    supabaseCallback tok callImpl afterAuth = 500 := by
  refine ⟨rfl, ?_⟩
  simp [supabaseCallback, jsCall, importedVerifyJwt, jsGetProp,
    verifyJwtModuleExports, h]

/-- Witness for C2: a concrete non-empty token yields 500 even with a
verifier implementation that would succeed and a handler tail that would
answer 200. -/
theorem supabaseCallback_always_500_witness :
    importedVerifyJwt = JsValue.undef ∧
    supabaseCallback "valid.jwt.token" (fun _ => some samplePayload)
      (fun _ => 200) = 500 :=
  supabaseCallback_always_500 "valid.jwt.token" (fun _ => some samplePayload)
    (fun _ => 200) (by decide)

/-- C1: the callback route configures rateLimitMiddleware(10, 60) while
the inline comment and the specification describe a 60-second window;
the implementation multiplies the second argument as minutes, so the
window is 3600000 ms (3600 s), not 60000 ms; consequently an 11th
request from the same address and agent pair arriving 70 seconds after
the first ten — after the claimed 60-second window has elapsed — is
still rejected; and the retryAfter value in the 429 body is the ceiling
of the epoch-millisecond reset timestamp divided by 1000, an absolute
epoch-seconds value (about 1.7 billion for a present-day clock), not a
delta bounded by 60. -/
theorem callbackRateLimit_code_bug :
    callbackWindowMs = 3600000 ∧
    callbackWindowMs ≠ 60 * 1000 ∧
    rateKey "203.0.113.7" "Mozilla/5.0" = "203.0.113.7-Mozilla/5.0" ∧
    (rateRun callbackWindowMs callbackMaxRequests
        [0, 0, 0, 0, 0, 0, 0, 0, 0, 0, 70000]).1 =
      [true, true, true, true, true, true, true, true, true, true, false] ∧
    (rateRun (60 * 1000) callbackMaxRequests
        [0, 0, 0, 0, 0, 0, 0, 0, 0, 0, 70000]).1 =
      [true, true, true, true, true, true, true, true, true, true, true] ∧
    retryAfterOf (1700000000000 + callbackWindowMs) = 1700003600 ∧
    ¬ retryAfterOf (1700000000000 + callbackWindowMs) ≤ 60 := by
  refine ⟨rfl, by decide, rfl, by decide, by decide, rfl, by decide⟩
